import Mathlib

/-!
Verification of the linx.js pagination library (`src/classes/BasePaginator.ts`,
`src/classes/SelectMenuPaginator.ts`, `src/utils/validation.ts`,
`src/utils/errorHandler.ts`, `src/constants/defaults.ts`).

This is a shallow embedding: the mutable class state becomes an explicit
state value threaded through pure step functions, asynchronous transport
calls (reply / edit / delete / deferUpdate) become an oracle boolean plus a
recorded effect, thrown `LinxError`s become an `err : Option LinxError`
component of each step result, and `EventEmitter` emissions become a list of
events in the step result.  Machine integers of the source are JS doubles
used only at integer values, embedded as `Int`.
-/

namespace LinxJS

/-- Errors of `src/utils/errorHandler.ts`, abstracted to their kind and the
failing field/component name (`ErrorHandler.validation`, `.render`,
`.component`, and the wrapping of transport failures by
`ErrorHandler.handle`, which produces a `DISCORD_API_ERROR`). -/
inductive LinxError where
  | validation (field : String)
  | renderErr (page : Int)
  | component (componentType : String)
  | transport
  deriving Repr, DecidableEq

/-- The `reason` argument of `BasePaginator.stop`. -/
inductive StopReason where
  | user
  | timeout
  | error
  deriving Repr, DecidableEq

/-- A select-menu option as built by `StringSelectMenuOptionBuilder` in
`SelectMenuPaginator.buildComponents` (label, value, optional description,
default flag). -/
structure SelectOption where
  label : String
  value : String
  description : Option String
  isDefault : Bool
  deriving Repr, DecidableEq

/-- A message component: the two kinds the library ever places in an action
row (`ButtonBuilder`, `StringSelectMenuBuilder`). -/
inductive Component where
  | button (customId : String) (label : String) (disabled : Bool)
  | selectMenu (customId : String) (options : List SelectOption) (disabled : Bool)
  deriving Repr, DecidableEq

/-- An `ActionRowBuilder` holding components. -/
structure ActionRow where
  components : List Component
  deriving Repr, DecidableEq

/-- The parts of a discord.js embed the library reads or writes
(`EmbedBuilder` title/description/footer). -/
structure Embed where
  title : Option String := none
  description : Option String := none
  footer : Option String := none
  deriving Repr, DecidableEq

/-- Result of `renderCurrentPage`: the page renderer returns an
`EmbedBuilder` or a string (`PageRenderer` in `src/types/index.ts`). -/
inductive Rendered where
  | embed (e : Embed)
  | content (s : String)
  deriving Repr, DecidableEq

/-- A message payload as assembled by `BasePaginator.buildMessagePayload`:
either a `content` key or an `embeds` key is present, never both. -/
structure Payload where
  content : Option String
  embeds : List Embed
  components : List ActionRow
  ephemeral : Bool
  deriving Repr, DecidableEq

/-- Transport and interaction side effects issued by the session, in order.
`send` models `interaction.reply`/`editReply`, `edit` models
`message.edit`, `deleteMsg` models `message.delete`, `deferUpdate` and
`replyEphemeral` model the component-interaction acknowledgements, and
`clearTimeoutE`/`stopCollector` model the teardown in `stop`. -/
inductive Effect where
  | send (p : Payload)
  | edit (p : Payload)
  | deleteMsg
  | deferUpdate
  | replyEphemeral (content : String)
  | clearTimeoutE (id : Nat)
  | stopCollector
  deriving Repr, DecidableEq

/-- The events of `PaginationEvents` in `src/types/index.ts`.  `pageChange`,
`start` and `timeoutEv` carry `this.state.data[page]`, which may be absent
(`undefined`) when the index is out of range, hence `Option T`. -/
inductive PgEvent (T : Type) where
  | start (initialPage : Int) (item : Option T)
  | pageChange (newPage : Int) (oldPage : Int) (item : Option T)
  | timeoutEv (lastPage : Int) (item : Option T)
  | ended (reason : StopReason) (lastPage : Int)
  | errorEv (e : LinxError)
  deriving Repr, DecidableEq

/-- State `this.state` of `BasePaginator` (`PaginatorState` in
`src/types/index.ts`), with the message and timer handles made opaque
naturals.  `hasCollector` models the `this.collector` field of the class
(set by `setupCollector` once a message exists); `startedAt` is wall-clock
time and is not modelled. -/
structure PaginatorState (T : Type) where
  currentPage : Int
  totalPages : Int
  isActive : Bool
  message : Option Nat
  data : List T
  timeoutId : Option Nat
  hasCollector : Bool
  deriving Repr, DecidableEq

/-- The merged options of `BasePaginator` (`this.options`): the fields the
state machine reads.  The page renderer is threaded separately as a
function argument. -/
structure BaseOptions where
  ephemeral : Bool
  timeout : Int
  startPage : Int
  deleteOnTimeout : Bool
  timeoutMessage : String
  deriving Repr, DecidableEq

/-- Result of one (possibly throwing) method call: the state afterwards,
the emitted events, the issued transport effects, and the thrown error if
any. -/
structure StepResult (T : Type) where
  state : PaginatorState T
  events : List (PgEvent T)
  effects : List Effect
  err : Option LinxError
  deriving Repr, DecidableEq

/-- JS array indexing `data[i]`: `undefined` outside the bounds. -/
def jsIndex {T : Type} (l : List T) (i : Int) : Option T :=
  if 0 ≤ i then l.get? i.toNat else none

/-- JS string truthiness of an optional string: `undefined` and the empty
string are falsy. -/
def strTruthy : Option String → Bool
  | some s => !s.isEmpty
  | none => false

/-- JS `String.prototype.trim`: whitespace stripped from both ends
(char-list implementation of the core `String.trim`). -/
def jsTrim (s : String) : String :=
  ⟨((s.data.dropWhile Char.isWhitespace).reverse.dropWhile Char.isWhitespace).reverse⟩

/-- Embeds `ValidationUtils.validatePageNumber` (`src/utils/validation.ts`): the
`Number.isInteger` test is always true in this `Int` embedding; the range
test rejects `page < 0` and `page >= totalPages`. -/
def validatePageNumber (page totalPages : Int) : Except LinxError Unit :=
  if page < 0 ∨ totalPages ≤ page then .error (.validation "page") else .ok ()

/-- State initialisation of the `BasePaginator` constructor:
`validatePaginationData` requires a non-empty array; `currentPage` is
clamped to `min(options.startPage, data.length - 1)`; when the clamped page
is non-negative it is validated against `totalPages`. -/
def initState {T : Type} (data : List T) (startPage : Int) :
    Except LinxError (PaginatorState T) :=
  if data.isEmpty then .error (.validation "data")
  else
    let currentPage := min startPage ((data.length : Int) - 1)
    let s : PaginatorState T :=
      { currentPage := currentPage
        totalPages := (data.length : Int)
        isActive := false
        message := none
        data := data
        timeoutId := none
        hasCollector := false }
    if 0 ≤ currentPage then
      match validatePageNumber currentPage s.totalPages with
      | .error e => .error e
      | .ok _ => .ok s
    else .ok s

/-- Embeds `BasePaginator.getState`: returns a shallow copy of `this.state`. -/
def getState {T : Type} (s : PaginatorState T) : PaginatorState T := s

/-- Embeds `BasePaginator.stop(reason)`: returns immediately when inactive;
otherwise clears the active flag, cancels the timeout, stops the collector
and emits a single `end` event. -/
def stop {T : Type} (s : PaginatorState T) (reason : StopReason) : StepResult T :=
  if s.isActive = false then ⟨s, [], [], none⟩
  else
    let effs :=
      (match s.timeoutId with
       | some id => [Effect.clearTimeoutE id]
       | none => [])
      ++ (if s.hasCollector then [Effect.stopCollector] else [])
    ⟨{ s with isActive := false, timeoutId := none },
     [PgEvent.ended reason s.currentPage], effs, none⟩

/-- Embeds `BasePaginator.start()`.  Here `bp` stands for `buildMessagePayload` (the
abstract `buildComponents` plus the caller-supplied page renderer, either of
which may throw), `sendOk` is the transport oracle for the initial
`reply`/`editReply`, and `msgHandle`/`timerHandle` are the handles the
platform returns.  On any failure the catch block clears `isActive`, emits
the error and rethrows (the error event emitted inside `renderCurrentPage`
before it rethrows is folded into this single emission). -/
def start {T : Type} (bp : PaginatorState T → Except LinxError Payload)
    (sendOk : Bool) (msgHandle timerHandle : Nat) (opts : BaseOptions)
    (s : PaginatorState T) : StepResult T :=
  if s.isActive then ⟨s, [], [], some (.validation "paginator")⟩
  else
    let s1 := { s with isActive := true }
    match bp s1 with
    | .error e => ⟨{ s1 with isActive := false }, [PgEvent.errorEv e], [], some e⟩
    | .ok p =>
      if sendOk then
        let s2 := { s1 with
          message := some msgHandle
          timeoutId := if 0 < opts.timeout then some timerHandle else none
          hasCollector := true }
        ⟨s2, [PgEvent.start s2.currentPage (jsIndex s2.data s2.currentPage)],
         [Effect.send p], none⟩
      else
        ⟨{ s1 with isActive := false }, [PgEvent.errorEv .transport],
         [Effect.send p], some .transport⟩

/-- Embeds `BasePaginator.goToPage(page)`: requires an active session, validates
the page, optimistically sets `currentPage`, then `updateMessage` (a no-op
when no message handle is stored, otherwise a transport `edit` whose
success is the oracle `editOk`); on success emits `pageChange`, on failure
rolls `currentPage` back and rethrows the wrapped error. -/
def goToPage {T : Type} (bp : PaginatorState T → Except LinxError Payload)
    (editOk : Bool) (s : PaginatorState T) (page : Int) : StepResult T :=
  if s.isActive = false then ⟨s, [], [], some (.validation "paginator")⟩
  else
    match validatePageNumber page s.totalPages with
    | .error e => ⟨s, [], [], some e⟩
    | .ok _ =>
      let oldPage := s.currentPage
      let s1 := { s with currentPage := page }
      match s1.message with
      | none =>
        ⟨s1, [PgEvent.pageChange page oldPage (jsIndex s1.data page)], [], none⟩
      | some _ =>
        match bp s1 with
        | .error e =>
          ⟨{ s1 with currentPage := oldPage }, [PgEvent.errorEv e], [], some e⟩
        | .ok p =>
          if editOk then
            ⟨s1, [PgEvent.pageChange page oldPage (jsIndex s1.data page)],
             [Effect.edit p], none⟩
          else
            ⟨{ s1 with currentPage := oldPage }, [], [Effect.edit p],
             some .transport⟩

/-- Embeds `BasePaginator.disableAllComponents`: rebuilds each row with every
button and select menu carried over with `disabled := true` (those are the
only component kinds the library ever places in a row). -/
def disableComponent : Component → Component
  | .button id l _ => .button id l true
  | .selectMenu id optionList _ => .selectMenu id optionList true

/-- Row-wise application of `disableComponent`, as in
`disableAllComponents`. -/
def disableAllComponents (rows : List ActionRow) : List ActionRow :=
  rows.map fun r => ⟨r.components.map disableComponent⟩

/-- The timeout payload mangling inside `BasePaginator.handleTimeout`: all
components disabled, then — via JS truthiness on `timeoutPayload.content` —
a non-empty content is replaced by the timeout message, otherwise a first
embed, when present, gets the timeout message as its footer. -/
def timeoutEditPayload (opts : BaseOptions) (p : Payload) : Payload :=
  let p1 := { p with components := disableAllComponents p.components }
  if strTruthy p1.content then { p1 with content := some opts.timeoutMessage }
  else
    match p1.embeds with
    | e0 :: _ => { p1 with embeds := [{ e0 with footer := some opts.timeoutMessage }] }
    | [] => p1

/-- Embeds `BasePaginator.handleTimeout`: emits `timeout`, then either deletes the
message (`deleteOnTimeout` policy) or edits it with all controls disabled
and the timeout notice, and finally calls `stop('timeout')`.  Both the
delete and the edit swallow transport failures (`.catch(() => ...)`), so no
transport oracle is needed; a throwing `buildMessagePayload` is caught by
the surrounding try/catch, which emits the error. -/
def handleTimeout {T : Type} (bp : PaginatorState T → Except LinxError Payload)
    (opts : BaseOptions) (s : PaginatorState T) : StepResult T :=
  let tEv := PgEvent.timeoutEv s.currentPage (jsIndex s.data s.currentPage)
  let body : List (PgEvent T) × List Effect :=
    if opts.deleteOnTimeout ∧ s.message.isSome then ([tEv], [Effect.deleteMsg])
    else if s.message.isSome then
      match bp s with
      | .error e => ([tEv, PgEvent.errorEv e], [])
      | .ok p => ([tEv], [Effect.edit (timeoutEditPayload opts p)])
    else ([tEv], [])
  let fin := stop s .timeout
  ⟨fin.state, body.1 ++ fin.events, body.2 ++ fin.effects, none⟩

/-- Embeds `BasePaginator.buildMessagePayload`: renders the current page (the
renderer and its validation may throw), builds the components (abstract,
may throw), and wraps the result with either a `content` or an `embeds`
key plus the ephemeral flag. -/
def buildMessagePayload {T : Type}
    (render : PaginatorState T → Except LinxError Rendered)
    (buildComps : PaginatorState T → Except LinxError (List ActionRow))
    (ephemeral : Bool) (s : PaginatorState T) : Except LinxError Payload := do
  let r ← render s
  let comps ← buildComps s
  match r with
  | .embed e => pure ⟨none, [e], comps, ephemeral⟩
  | .content str => pure ⟨some str, [], comps, ephemeral⟩

/-- True when every component of every row is disabled. -/
def allDisabled (rows : List ActionRow) : Bool :=
  rows.all fun r =>
    r.components.all fun c =>
      match c with
      | .button _ _ d => d
      | .selectMenu _ _ d => d

/-- True when the payload visibly carries the timeout notice `msg`: as its
text content or as the footer of one of its embeds. -/
def payloadHasNotice (p : Payload) (msg : String) : Bool :=
  p.content == some msg || p.embeds.any fun e => e.footer == some msg

/-! ## SelectMenuPaginator (`src/classes/SelectMenuPaginator.ts`) -/

/-- The shape of the JS values `generateOptionDescription` inspects on an
object item: its `description`/`content`/`title`/`name`/`label` fields
(coerced with `String(...)`, so kept as strings) and the size of
`Object.keys(obj)`. -/
structure JsObject where
  description : Option String
  content : Option String
  title : Option String
  name : Option String
  label : Option String
  numKeys : Nat
  deriving Repr, DecidableEq

/-- The universe of page items the selector inspects: a string, an object
with the fields above, or another primitive carrying its `String(item)`
rendering. -/
inductive JsItem where
  | str (s : String)
  | obj (o : JsObject)
  | prim (s : String)
  deriving Repr, DecidableEq

/-- Return value of a `CustomLabelRenderer` (`src/types/index.ts`): a label
and an optional description.  Renderers are modelled as total, well-typed
functions, so of the source's shape checks only the empty-after-trim label
check remains observable. -/
structure CustomLabelResult where
  label : String
  description : Option String

/-- Type `CustomLabelRenderer<T>` instantiated at the item universe. -/
def CustomLabelRenderer : Type := JsItem → Nat → CustomLabelResult

/-- The internal strategy tag of `this.labelConfig.type`. -/
inductive LabelType where
  | pageNumbers
  | customNumbers
  | customLabels
  deriving Repr, DecidableEq

/-- Field `this.labelConfig` minus the renderer (kept separately): the strategy
and the trimmed prefix/suffix.  The source fields `prefix`/`suffix` are
Lean keywords and are embedded as `pfx`/`sfx`. -/
structure LabelConfig where
  type : LabelType
  pfx : Option String
  sfx : Option String
  deriving Repr, DecidableEq

/-- The `labelOption` union type of `src/types/index.ts`:
`'PageNumbers' | 'CustomLabels' | ['CustomNumbers', prefix] |
['CustomNumbers', prefix, suffix]`. -/
inductive LabelOption where
  | pageNumbers
  | customLabels
  | customNumbersP (p : String)
  | customNumbersPS (p s : String)
  deriving Repr, DecidableEq

/-- Embeds `SelectMenuPaginator.parseLabelOption`: the JS guard
`!x || x.trim().length === 0` on a string is equivalent to
`x.trim().isEmpty`. -/
def parseLabelOption : LabelOption → Except LinxError LabelConfig
  | .pageNumbers => .ok ⟨.pageNumbers, none, none⟩
  | .customLabels => .ok ⟨.customLabels, none, none⟩
  | .customNumbersP p =>
    if (jsTrim p).isEmpty then .error (.validation "labelOption prefix")
    else .ok ⟨.customNumbers, some (jsTrim p), none⟩
  | .customNumbersPS p s =>
    if (jsTrim p).isEmpty then
      if (jsTrim s).isEmpty then .error (.validation "labelOption")
      else .ok ⟨.customNumbers, none, some (jsTrim s)⟩
    else .ok ⟨.customNumbers, some (jsTrim p), some (jsTrim s)⟩

/-- The label-configuration part of the `SelectMenuPaginator` constructor:
parse `labelOption`; when the strategy is `custom-labels`, a
`customLabelRenderer` is mandatory and is attached to the config; for every
other strategy `this.labelConfig.customRenderer` stays unset. -/
def mkLabelSetup (labelOption : LabelOption)
    (customLabelRenderer : Option CustomLabelRenderer) :
    Except LinxError (LabelConfig × Option CustomLabelRenderer) := do
  let cfg ← parseLabelOption labelOption
  if cfg.type = .customLabels then
    match customLabelRenderer with
    | none => .error (.validation "customLabelRenderer")
    | some r => .ok (cfg, some r)
  else .ok (cfg, none)

/-- Embeds `SelectMenuPaginator.generateOptionLabel`.  The `custom-numbers` case
tests `prefix && suffix` with JS truthiness; when both are truthy the
prefix branch is taken ("prefix takes priority as per requirements" in the
source) and the suffix is not used at all. -/
def generateOptionLabel (cfg : LabelConfig) (renderer : Option CustomLabelRenderer)
    (item : JsItem) (index : Nat) : Except LinxError String :=
  let pageNumber := index + 1
  match cfg.type with
  | .pageNumbers => .ok ("Page " ++ toString pageNumber)
  | .customNumbers =>
    if strTruthy cfg.pfx && strTruthy cfg.sfx then
      .ok (cfg.pfx.getD "" ++ " " ++ toString pageNumber)
    else if strTruthy cfg.pfx then
      .ok (cfg.pfx.getD "" ++ " " ++ toString pageNumber)
    else if strTruthy cfg.sfx then
      .ok (toString pageNumber ++ " " ++ cfg.sfx.getD "")
    else .ok (toString pageNumber)
  | .customLabels =>
    match renderer with
    | some r =>
      let result := r item index
      if (jsTrim result.label).isEmpty then .error (.renderErr (index : Int))
      else .ok (jsTrim result.label)
    | none => .ok ("Page " ++ toString pageNumber)

/-- The `substring(0, maxLength - 3) + '...'` truncation used by
`generateOptionDescription` (JS `substring` clamps a negative end to 0). -/
def truncateDesc (s : String) (maxLength : Int) : String :=
  if maxLength < (s.length : Int) then s.take (maxLength - 3).toNat ++ "..." else s

/-- Embeds `SelectMenuPaginator.generateOptionDescription`: the custom renderer's
own description for the `custom-labels` strategy, otherwise the
auto-description derived from the item (first truthy field in preference
order for objects, the string itself for strings, `String(item)` for other
primitives), truncated to `descriptionMaxLength`. -/
def generateOptionDescription (cfg : LabelConfig)
    (renderer : Option CustomLabelRenderer) (autoDescriptions : Bool)
    (descriptionMaxLength : Int) (item : JsItem) (index : Nat) : String :=
  match cfg.type, renderer with
  | .customLabels, some r =>
    match (r item index).description with
    | some d => jsTrim d
    | none => ""
  | _, _ =>
    if autoDescriptions = false then ""
    else
      match item with
      | .str s => truncateDesc s descriptionMaxLength
      | .obj o =>
        let d :=
          if strTruthy o.description then o.description.getD ""
          else if strTruthy o.content then o.content.getD ""
          else if strTruthy o.title then o.title.getD ""
          else if strTruthy o.name then o.name.getD ""
          else if strTruthy o.label then o.label.getD ""
          else "Object with " ++ toString o.numKeys ++ " properties"
        truncateDesc d descriptionMaxLength
      | .prim s => truncateDesc s descriptionMaxLength

/-- The select-menu options of `this.selectMenuOptions` that
`buildComponents` reads. -/
structure SelectMenuOpts where
  placeholder : String
  customId : String
  maxOptionsPerMenu : Int
  autoDescriptions : Bool
  descriptionMaxLength : Int
  deriving Repr, DecidableEq

/-- One iteration of the option-building loop in
`SelectMenuPaginator.buildComponents`: generate label and description; a
throwing label generation or a label longer than 100 characters falls back
to a plain `Page n` option; a non-empty trimmed description is attached,
itself truncated to 100 characters.  Every branch sets
`default := (i === currentPage)`. -/
def buildOption (cfg : LabelConfig) (renderer : Option CustomLabelRenderer)
    (opts : SelectMenuOpts) (currentPage : Int) (item : JsItem) (i : Nat) :
    SelectOption :=
  let fallback : SelectOption :=
    ⟨"Page " ++ toString (i + 1), toString i, none, decide ((i : Int) = currentPage)⟩
  match generateOptionLabel cfg renderer item i with
  | .error _ => fallback
  | .ok label =>
    if 100 < (label.length : Int) then fallback
    else
      let description := generateOptionDescription cfg renderer
        opts.autoDescriptions opts.descriptionMaxLength item i
      let base : SelectOption :=
        ⟨label, toString i, none, decide ((i : Int) = currentPage)⟩
      if (jsTrim description).isEmpty then base
      else
        let d := jsTrim description
        if 100 < d.length then { base with description := some (d.take 97 ++ "...") }
        else { base with description := some d }

/-- One slot of the option-building loop in
`SelectMenuPaginator.buildComponents`: the item `this.state.data[i]` fed to
`buildOption` (for states produced by the constructor every index below
`min(totalPages, maxOptionsPerMenu)` is inside `data`; a hypothetically
missing item also yields the fallback `Page n` option). -/
def selectOptionEntry (cfg : LabelConfig) (renderer : Option CustomLabelRenderer)
    (opts : SelectMenuOpts) (s : PaginatorState JsItem) (i : Nat) : SelectOption :=
  match s.data.get? i with
  | some item => buildOption cfg renderer opts s.currentPage item i
  | none =>
    ⟨"Page " ++ toString (i + 1), toString i, none, decide ((i : Int) = s.currentPage)⟩

/-- The option list built by the loop of
`SelectMenuPaginator.buildComponents`, over
`0 <= i < min(totalPages, maxOptionsPerMenu)`. -/
def selectOptionsList (cfg : LabelConfig) (renderer : Option CustomLabelRenderer)
    (opts : SelectMenuOpts) (s : PaginatorState JsItem) : List SelectOption :=
  (List.range (min s.totalPages opts.maxOptionsPerMenu).toNat).map
    (selectOptionEntry cfg renderer opts s)

/-- Embeds `SelectMenuPaginator.buildComponents`: one select menu listing the
first `min(totalPages, maxOptionsPerMenu)` pages.  An empty option list is
a component error. -/
def buildComponents (cfg : LabelConfig) (renderer : Option CustomLabelRenderer)
    (opts : SelectMenuOpts) (s : PaginatorState JsItem) :
    Except LinxError (List ActionRow) :=
  let options := selectOptionsList cfg renderer opts s
  if options.isEmpty then .error (.component "SelectMenu")
  else .ok [⟨[Component.selectMenu opts.customId options false]⟩]

/-- Decimal digit accumulation for `jsParseInt`. -/
def digitsToNat (acc : Nat) : List Char → Nat
  | [] => acc
  | c :: cs => digitsToNat (acc * 10 + (c.toNat - 48)) cs

/-- JS `parseInt(s, 10)`: skip leading whitespace, read an optional sign,
then the longest digit run; `NaN` (here `none`) when no digit follows. -/
def jsParseInt (s : String) : Option Int :=
  let t := s.data.dropWhile Char.isWhitespace
  let (neg, rest) :=
    match t with
    | '-' :: cs => (true, cs)
    | '+' :: cs => (false, cs)
    | cs => (false, cs)
  let ds := rest.takeWhile Char.isDigit
  if ds.isEmpty then none
  else some (if neg then -(digitsToNat 0 ds : Int) else (digitsToNat 0 ds : Int))

/-- An incoming `StringSelectMenuInteraction` as the router sees it: the
acting user, the component id, and the chosen values. -/
structure SelectInteractionEvent where
  userId : String
  customId : String
  values : List String
  deriving Repr, DecidableEq

/-- Embeds `SelectMenuPaginator.handleComponentInteraction`: reject foreign users
with an ephemeral notice, acknowledge with `deferUpdate`, check the
component id, parse the first chosen value, validate it against
`totalPages`, and navigate only when the chosen page differs from
`currentPage`; every caught error is emitted, never rethrown. -/
def handleComponentInteraction (bp : PaginatorState JsItem → Except LinxError Payload)
    (editOk : Bool) (invokerId : String) (menuCustomId : String)
    (s : PaginatorState JsItem) (ci : SelectInteractionEvent) : StepResult JsItem :=
  if ci.userId ≠ invokerId then
    ⟨s, [], [Effect.replyEphemeral "You cannot use this pagination."], none⟩
  else
    let ack := [Effect.deferUpdate]
    if ci.customId ≠ menuCustomId then
      ⟨s, [PgEvent.errorEv (.component "SelectMenu")], ack, none⟩
    else
      match ci.values with
      | [] => ⟨s, [], ack, none⟩
      | v :: _ =>
        match jsParseInt v with
        | none => ⟨s, [PgEvent.errorEv (.component "SelectMenu")], ack, none⟩
        | some selectedPage =>
          if selectedPage < 0 ∨ s.totalPages ≤ selectedPage then
            ⟨s, [PgEvent.errorEv (.component "SelectMenu")], ack, none⟩
          else if selectedPage ≠ s.currentPage then
            let r := goToPage bp editOk s selectedPage
            match r.err with
            | some e => ⟨r.state, r.events ++ [PgEvent.errorEv e], ack ++ r.effects, none⟩
            | none => ⟨r.state, r.events, ack ++ r.effects, none⟩
          else ⟨s, [], ack, none⟩

/-- The select options contained in a built component row list. -/
def selectOptionsOf (rows : List ActionRow) : List SelectOption :=
  rows.flatMap fun r =>
    r.components.flatMap fun c =>
      match c with
      | .selectMenu _ optionList _ => optionList
      | .button _ _ _ => []

/-- Number of options flagged as the default selection. -/
def defaultCount (rows : List ActionRow) : Nat :=
  ((selectOptionsOf rows).filter fun o => o.isDefault).length

/-- True exactly on `end` events, for counting them. -/
def isEndEvent {T : Type} : PgEvent T → Bool
  | .ended _ _ => true
  | _ => false

/-! ## Shared concrete material for witnesses and counterexamples -/

/-- A payload a generic successful render may produce. -/
def demoPayload : Payload := ⟨some "page 1", [], [], false⟩

/-- A `buildMessagePayload` oracle that always succeeds with
`demoPayload`. -/
def demoBp {T : Type} : PaginatorState T → Except LinxError Payload :=
  fun _ => .ok demoPayload

/-- A two-page active session with a delivered message, as left by a
successful `start`. -/
def demoActive : PaginatorState String :=
  ⟨0, 2, true, some 0, ["a", "b"], some 1, true⟩

/-- An active three-page selector session currently showing page 1. -/
def demoJsActive : PaginatorState JsItem :=
  ⟨1, 3, true, some 0, [.str "a", .str "b", .str "c"], some 1, true⟩

/-- A `buildMessagePayload` oracle over item data that always succeeds. -/
def demoJsBp : PaginatorState JsItem → Except LinxError Payload :=
  fun _ => .ok demoPayload

/-! ## Theorems for the claims -/

/-- C1: for every session in the Active state and every integer `n` with
`0 <= n < totalPages`, a successful `goToPage(n)` leaves the session with
`getState().currentPage == n`. -/
theorem goToPage_success_sets_currentPage {T : Type}
    (bp : PaginatorState T → Except LinxError Payload)
    (s : PaginatorState T) (n : Int)
    (hact : s.isActive = true) (h0 : 0 ≤ n) (hn : n < s.totalPages)
    (hok : (goToPage bp true s n).err = none) :
    (getState (goToPage bp true s n).state).currentPage = n := by
  have hval : validatePageNumber n s.totalPages = .ok () := by
    unfold validatePageNumber
    have h : ¬(n < 0 ∨ s.totalPages ≤ n) := by omega
    simp [h]
  unfold getState
  unfold goToPage at hok ⊢
  rw [if_neg (by simp [hact]), hval] at hok ⊢
  cases hm : s.message with
  | none => simp [hm]
  | some m =>
    simp only [hm] at hok ⊢
    cases hbp : bp { s with currentPage := n, message := some m } with
    | error e => simp [hbp] at hok
    | ok p => simp [hbp]

/-- Witness for C1 at a concrete session: navigating the two-page active
session to page 1 succeeds and reports page 1. -/
theorem goToPage_success_sets_currentPage_witness :
    (getState (goToPage demoBp true demoActive 1).state).currentPage = 1 :=
  goToPage_success_sets_currentPage demoBp demoActive 1 rfl (by decide)
    (by decide) (by decide)

/-- C2: when the transport edit performed by `goToPage(n)` fails, the call
rolls `currentPage` back to its pre-transition value, leaves the rest of
the state untouched, and surfaces the (wrapped) transport error. -/
theorem goToPage_edit_failure_rolls_back {T : Type}
    (bp : PaginatorState T → Except LinxError Payload)
    (s : PaginatorState T) (n : Int) (p : Payload)
    (hact : s.isActive = true) (h0 : 0 ≤ n) (hn : n < s.totalPages)
    (hmsg : s.message.isSome = true)
    (hbp : bp { s with currentPage := n } = .ok p) :
    goToPage bp false s n = ⟨s, [], [Effect.edit p], some .transport⟩ := by
  have hval : validatePageNumber n s.totalPages = .ok () := by
    unfold validatePageNumber
    have h : ¬(n < 0 ∨ s.totalPages ≤ n) := by omega
    simp [h]
  unfold goToPage
  rw [if_neg (by simp [hact]), hval]
  cases hm : s.message with
  | none => rw [hm] at hmsg; simp at hmsg
  | some m =>
    simp only [hm] at hbp ⊢
    simp [hbp]
    rw [← hm]

/-- Witness for C2: a failing edit on the concrete active session leaves
page 0 in place and surfaces a transport error. -/
theorem goToPage_edit_failure_rolls_back_witness :
    goToPage demoBp false demoActive 1 =
      ⟨demoActive, [], [Effect.edit demoPayload], some .transport⟩ :=
  goToPage_edit_failure_rolls_back demoBp demoActive 1 demoPayload rfl
    (by decide) (by decide) rfl rfl

/-- C8: `stop` is idempotent — starting from an Active session, the two
successive `stop('user')` calls emit exactly one `end` event between them,
and the second call returns without events, effects, error, or any state
change. -/
theorem stop_twice_single_end_event {T : Type} (s : PaginatorState T)
    (hact : s.isActive = true) :
    ((stop s .user).events
        ++ (stop (stop s .user).state .user).events).countP isEndEvent = 1 ∧
    stop (stop s .user).state .user = ⟨(stop s .user).state, [], [], none⟩ := by
  unfold stop
  simp [hact, isEndEvent]

/-- Witness for C8 on the concrete active session. -/
theorem stop_twice_single_end_event_witness :
    ((stop demoActive .user).events
        ++ (stop (stop demoActive .user).state .user).events).countP isEndEvent = 1 ∧
    stop (stop demoActive .user).state .user =
      ⟨(stop demoActive .user).state, [], [], none⟩ :=
  stop_twice_single_end_event demoActive rfl

/-- C10: `stop(reason)` on a session that was never started (inactive) is a
silent no-op — no thrown error, no `end` event, no effects, state
unchanged. -/
theorem stop_pending_is_silent_noop {T : Type} (s : PaginatorState T)
    (reason : StopReason) (hin : s.isActive = false) :
    stop s reason = ⟨s, [], [], none⟩ := by
  unfold stop
  simp [hin]

/-- Witness for C10 on a freshly constructed (pending) session. -/
theorem stop_pending_is_silent_noop_witness :
    stop (⟨0, 2, false, none, ["a", "b"], none, false⟩ : PaginatorState String)
      StopReason.user = ⟨⟨0, 2, false, none, ["a", "b"], none, false⟩, [], [], none⟩ :=
  stop_pending_is_silent_noop _ _ rfl

/-- C9: a select-menu activation from the invoker whose chosen value parses
to the page already shown performs no navigation — the state is unchanged,
no `pageChange` (or any) event is emitted, and the only effect is the
`deferUpdate` acknowledgement. -/
theorem same_page_selection_is_noop
    (bp : PaginatorState JsItem → Except LinxError Payload) (editOk : Bool)
    (inv mid : String) (s : PaginatorState JsItem) (v : String)
    (hparse : jsParseInt v = some s.currentPage)
    (h0 : 0 ≤ s.currentPage) (hlt : s.currentPage < s.totalPages) :
    handleComponentInteraction bp editOk inv mid s ⟨inv, mid, [v]⟩ =
      ⟨s, [], [Effect.deferUpdate], none⟩ := by
  unfold handleComponentInteraction
  have hrange : ¬(s.currentPage < 0 ∨ s.totalPages ≤ s.currentPage) := by omega
  simp [hparse, hrange]

/-- Witness for C9: choosing value "1" while page 1 is shown only
acknowledges the interaction. -/
theorem same_page_selection_is_noop_witness :
    handleComponentInteraction demoJsBp true "u1" "linx_select_1"
        demoJsActive ⟨"u1", "linx_select_1", ["1"]⟩ =
      ⟨demoJsActive, [], [Effect.deferUpdate], none⟩ :=
  same_page_selection_is_noop demoJsBp true "u1" "linx_select_1" demoJsActive "1"
    (by decide) (by decide) (by decide)

/-- Base options with the default (delete) timeout policy. -/
def c3opts : BaseOptions := ⟨false, 300000, 0, true, "This pagination has timed out."⟩

/-- The state the `BasePaginator` constructor produces for two pages and
`startPage = 0`. -/
def c3init : PaginatorState String := ⟨0, 2, false, none, ["a", "b"], none, false⟩

/-- A session after `start` and `stop`: inactive, with its message handle
and collector still attached. -/
def c3stopped : PaginatorState String := ⟨0, 2, false, some 1, ["a", "b"], none, true⟩

/-- C3 counterexample: the claim says `start()` on a stopped session fails
with a state error; in fact the only lifecycle flag is `isActive`, which
`stop` resets, so a constructed-started-stopped session is restarted
without error: the second `start` succeeds, re-sends the message and turns
the session Active again. -/
theorem start_after_stop_reactivates_cex :
    initState ["a", "b"] 0 = Except.ok c3init ∧
    (start demoBp true 1 1 c3opts c3init).state.isActive = true ∧
    (stop (start demoBp true 1 1 c3opts c3init).state .user).state.isActive = false ∧
    (start demoBp true 2 2 c3opts
        (stop (start demoBp true 1 1 c3opts c3init).state .user).state).err = none ∧
    (start demoBp true 2 2 c3opts
        (stop (start demoBp true 1 1 c3opts c3init).state .user).state).state.isActive
      = true ∧
    Effect.send demoPayload ∈ (start demoBp true 2 2 c3opts
        (stop (start demoBp true 1 1 c3opts c3init).state .user).state).effects :=
  ⟨rfl, rfl, rfl, rfl, rfl, by decide⟩

/-- C3 amended: the code does not track a terminal Ended state — `stop`
only clears `isActive`, and `start` rejects exactly the currently-active
sessions; on any inactive session (pending or stopped) whose render
succeeds, `start` completes without error, re-sends the message, and
leaves the session Active. -/
theorem start_only_rejects_active {T : Type}
    (bp : PaginatorState T → Except LinxError Payload) (m t : Nat)
    (opts : BaseOptions) (s : PaginatorState T) (p : Payload)
    (hin : s.isActive = false)
    (hbp : bp { s with isActive := true } = .ok p) :
    (start bp true m t opts s).err = none ∧
    (start bp true m t opts s).state.isActive = true ∧
    (start bp true m t opts s).effects = [Effect.send p] := by
  unfold start
  rw [if_neg (by simp [hin])]
  simp [hbp]

/-- Witness for the C3 amendment: restarting a concrete stopped session. -/
theorem start_only_rejects_active_witness :
    (start demoBp true 2 2 c3opts c3stopped).err = none ∧
    (start demoBp true 2 2 c3opts c3stopped).state.isActive = true ∧
    (start demoBp true 2 2 c3opts c3stopped).effects = [Effect.send demoPayload] :=
  start_only_rejects_active demoBp 2 2 c3opts c3stopped demoPayload rfl rfl

/-- Every row rebuilt by `disableAllComponents` has only disabled
components. -/
theorem allDisabled_disableAllComponents (rows : List ActionRow) :
    allDisabled (disableAllComponents rows) = true := by
  unfold allDisabled disableAllComponents
  simp only [List.all_map, List.all_eq_true, Function.comp]
  intro r hr c hc
  cases c <;> rfl

/-- The `stop` teardown never deletes the message. -/
theorem deleteMsg_not_mem_stop_effects {T : Type} (s : PaginatorState T)
    (reason : StopReason) :
    Effect.deleteMsg ∉ (stop s reason).effects := by
  unfold stop
  split
  · simp
  · cases s.timeoutId <;> cases s.hasCollector <;> simp

/-- The timeout edit never touches the component list beyond disabling. -/
theorem timeoutEditPayload_components (opts : BaseOptions) (p : Payload) :
    (timeoutEditPayload opts p).components = disableAllComponents p.components := by
  unfold timeoutEditPayload
  dsimp only
  split
  · rfl
  · split <;> rfl

/-- When the rendered page has truthy content or at least one embed, the
timeout edit carries the notice. -/
theorem timeoutEditPayload_has_notice (opts : BaseOptions) (p : Payload)
    (hne : strTruthy p.content = true ∨ p.embeds ≠ []) :
    payloadHasNotice (timeoutEditPayload opts p) opts.timeoutMessage = true := by
  unfold timeoutEditPayload payloadHasNotice
  rcases hne with h | h
  · simp [h]
  · by_cases hc : strTruthy p.content
    · simp [hc]
    · simp only [hc, Bool.false_eq_true, if_false]
      cases he : p.embeds with
      | nil => exact absurd he h
      | cons e0 rest => simp

/-- The row used in C4 material: one enabled button. -/
def c4row : List ActionRow := [⟨[Component.button "linx_btn_next" "Next" false]⟩]

/-- A one-page session whose message is delivered, timer armed. -/
def c4state : PaginatorState String := ⟨0, 1, true, some 0, [""], some 3, true⟩

/-- Options with the disable-on-timeout policy (`deleteOnTimeout: false`,
the source encoding of `afterTimeout: 'disable'`). -/
def c4opts : BaseOptions := ⟨false, 300000, 0, false, "This pagination has timed out."⟩

/-- A `buildMessagePayload` whose page renders to the empty string (the
default renderer applied to the data item `""`). -/
def c4bpCex : PaginatorState String → Except LinxError Payload :=
  buildMessagePayload (fun _ => .ok (.content "")) (fun _ => .ok c4row) false

/-- C4 counterexample: with the disable policy, a page rendering to the
empty string defeats the JS truthiness test `if (timeoutPayload.content)`
in `handleTimeout`, so the timeout edit carries no notice at all — the
controls are disabled and nothing is deleted, but no timeout notice is
appended, contradicting the claim for every session. -/
theorem timeout_disable_empty_content_cex :
    c4opts.deleteOnTimeout = false ∧
    (handleTimeout c4bpCex c4opts c4state).effects =
      [Effect.edit ⟨some "", [], disableAllComponents c4row, false⟩,
       Effect.clearTimeoutE 3, Effect.stopCollector] ∧
    payloadHasNotice ⟨some "", [], disableAllComponents c4row, false⟩
      c4opts.timeoutMessage = false ∧
    allDisabled (disableAllComponents c4row) = true ∧
    Effect.deleteMsg ∉ (handleTimeout c4bpCex c4opts c4state).effects := by
  decide

/-- C4 amended: with `deleteOnTimeout = false` (the `afterTimeout:
'disable'` policy) and a delivered message, firing the timeout edits the
message with every control disabled and does not delete it; the timeout
notice is appended provided the current page renders to truthy (non-empty)
text content or to an embed. -/
theorem handleTimeout_disable_edits_disabled_with_notice {T : Type}
    (bp : PaginatorState T → Except LinxError Payload) (opts : BaseOptions)
    (s : PaginatorState T) (m : Nat) (p : Payload)
    (hdel : opts.deleteOnTimeout = false) (hmsg : s.message = some m)
    (hbp : bp s = .ok p)
    (hne : strTruthy p.content = true ∨ p.embeds ≠ []) :
    (handleTimeout bp opts s).effects =
      Effect.edit (timeoutEditPayload opts p) :: (stop s .timeout).effects ∧
    allDisabled (timeoutEditPayload opts p).components = true ∧
    payloadHasNotice (timeoutEditPayload opts p) opts.timeoutMessage = true ∧
    Effect.deleteMsg ∉ (handleTimeout bp opts s).effects := by
  have heff : (handleTimeout bp opts s).effects =
      Effect.edit (timeoutEditPayload opts p) :: (stop s .timeout).effects := by
    unfold handleTimeout
    simp [hdel, hmsg, hbp]
  refine ⟨heff, ?_, timeoutEditPayload_has_notice opts p hne, ?_⟩
  · rw [timeoutEditPayload_components]
    exact allDisabled_disableAllComponents p.components
  · rw [heff]
    intro hmem
    rcases List.mem_cons.mp hmem with h | h
    · exact Effect.noConfusion h
    · exact deleteMsg_not_mem_stop_effects s .timeout h

/-- A `buildMessagePayload` whose page renders to non-empty text. -/
def c4bpW : PaginatorState String → Except LinxError Payload :=
  fun _ => .ok ⟨some "hello", [], c4row, false⟩

/-- Witness for the C4 amendment at a concrete non-empty page. -/
theorem handleTimeout_disable_edits_disabled_with_notice_witness :
    (handleTimeout c4bpW c4opts c4state).effects =
      Effect.edit (timeoutEditPayload c4opts ⟨some "hello", [], c4row, false⟩)
        :: (stop c4state .timeout).effects ∧
    allDisabled (timeoutEditPayload c4opts
      ⟨some "hello", [], c4row, false⟩).components = true ∧
    payloadHasNotice (timeoutEditPayload c4opts ⟨some "hello", [], c4row, false⟩)
      c4opts.timeoutMessage = true ∧
    Effect.deleteMsg ∉ (handleTimeout c4bpW c4opts c4state).effects :=
  handleTimeout_disable_edits_disabled_with_notice c4bpW c4opts c4state 0
    ⟨some "hello", [], c4row, false⟩ rfl rfl rfl (Or.inl (by decide))

/-- A custom label renderer that labels every page "X". -/
def c5renderer : CustomLabelRenderer := fun _ _ => ⟨"X", none⟩

/-- C5 counterexample: with `labelOption = ['CustomNumbers', 'Chapter']`
and a `customLabelRenderer` configured simultaneously, the constructor
keeps the custom-numbers strategy and discards the renderer, so the
rendered label is the prefix-numbered "Chapter 1" and not the renderer's
"X" — custom numbering, not the custom renderer, wins. -/
theorem custom_renderer_ignored_with_customNumbers_cex :
    mkLabelSetup (.customNumbersP "Chapter") (some c5renderer) =
      .ok (⟨.customNumbers, some "Chapter", none⟩, none) ∧
    generateOptionLabel ⟨.customNumbers, some "Chapter", none⟩ none
      (.str "alpha") 0 = .ok "Chapter 1" ∧
    (c5renderer (.str "alpha") 0).label = "X" ∧
    ("Chapter 1" : String) ≠ "X" :=
  ⟨rfl, rfl, rfl, by decide⟩

/-- C5 amended: the `labelOption` value alone selects the strategy — when
it is `['CustomNumbers', prefix]` with a non-empty prefix, a supplied
`customLabelRenderer` is discarded by the constructor and every rendered
label is the prefix numbering `"{prefix} {i+1}"`, independent of the
renderer; the renderer is consulted only under `labelOption =
'CustomLabels'`. -/
theorem customNumbers_selects_prefix_labels (p : String)
    (r : CustomLabelRenderer) (item : JsItem) (i : Nat)
    (hp : (jsTrim p).isEmpty = false) :
    mkLabelSetup (.customNumbersP p) (some r) =
      .ok (⟨.customNumbers, some (jsTrim p), none⟩, none) ∧
    generateOptionLabel ⟨.customNumbers, some (jsTrim p), none⟩ none item i =
      .ok (jsTrim p ++ " " ++ toString (i + 1)) := by
  constructor
  · unfold mkLabelSetup parseLabelOption
    simp only [hp, Bool.false_eq_true, if_false]
    rfl
  · unfold generateOptionLabel
    simp [strTruthy, hp]

/-- Witness for the C5 amendment on a concrete prefix and renderer. -/
theorem customNumbers_selects_prefix_labels_witness :
    mkLabelSetup (.customNumbersP "Chapter") (some c5renderer) =
      .ok (⟨.customNumbers, some (jsTrim "Chapter"), none⟩, none) ∧
    generateOptionLabel ⟨.customNumbers, some (jsTrim "Chapter"), none⟩ none
      (.str "alpha") 2 = .ok (jsTrim "Chapter" ++ " " ++ toString (2 + 1)) :=
  customNumbers_selects_prefix_labels "Chapter" c5renderer (.str "alpha") 2
    (by decide)

/-- C6 counterexample: with both prefix "Chapter" and suffix "Summary"
configured, the generated label for index 0 is "Chapter 1" — the suffix is
dropped entirely ("prefix takes priority" in the source), not appended as
the claimed "{prefix} {i+1}{suffix}" = "Chapter 1Summary". -/
theorem customNumbers_suffix_dropped_cex :
    parseLabelOption (.customNumbersPS "Chapter" "Summary") =
      .ok ⟨.customNumbers, some "Chapter", some "Summary"⟩ ∧
    generateOptionLabel ⟨.customNumbers, some "Chapter", some "Summary"⟩ none
      (.str "alpha") 0 = .ok "Chapter 1" ∧
    ("Chapter 1" : String) ≠ "Chapter 1Summary" :=
  ⟨rfl, rfl, by decide⟩

/-- C6 amended: with both a non-empty prefix and a non-empty suffix, the
label is `"{prefix} {i+1}"` — the suffix is dropped; with only a suffix the
label is `"{i+1} {suffix}"`; configuring neither a prefix nor a suffix is a
validation error. -/
theorem customNumbers_label_rules (p s : String) (item : JsItem) (i : Nat)
    (hp : (jsTrim p).isEmpty = false) (hs : (jsTrim s).isEmpty = false) :
    parseLabelOption (.customNumbersPS p s) =
      .ok ⟨.customNumbers, some (jsTrim p), some (jsTrim s)⟩ ∧
    generateOptionLabel ⟨.customNumbers, some (jsTrim p), some (jsTrim s)⟩
      none item i = .ok (jsTrim p ++ " " ++ toString (i + 1)) ∧
    parseLabelOption (.customNumbersPS "" s) =
      .ok ⟨.customNumbers, none, some (jsTrim s)⟩ ∧
    generateOptionLabel ⟨.customNumbers, none, some (jsTrim s)⟩ none item i =
      .ok (toString (i + 1) ++ " " ++ jsTrim s) ∧
    parseLabelOption (.customNumbersPS "" "") = .error (.validation "labelOption") ∧
    parseLabelOption (.customNumbersP "") =
      .error (.validation "labelOption prefix") := by
  refine ⟨?_, ?_, ?_, ?_, rfl, rfl⟩
  · unfold parseLabelOption
    simp [hp]
  · unfold generateOptionLabel
    simp [strTruthy, hp, hs]
  · unfold parseLabelOption
    dsimp only
    rw [if_pos (show (jsTrim "").isEmpty = true from rfl), if_neg (by simp [hs])]
  · unfold generateOptionLabel
    simp [strTruthy, hs]

/-- Witness for the C6 amendment on concrete prefix/suffix. -/
theorem customNumbers_label_rules_witness :
    parseLabelOption (.customNumbersPS "Chapter" "Summary") =
      .ok ⟨.customNumbers, some (jsTrim "Chapter"), some (jsTrim "Summary")⟩ ∧
    generateOptionLabel
      ⟨.customNumbers, some (jsTrim "Chapter"), some (jsTrim "Summary")⟩
      none (.str "alpha") 0 = .ok (jsTrim "Chapter" ++ " " ++ toString (0 + 1)) ∧
    parseLabelOption (.customNumbersPS "" "Summary") =
      .ok ⟨.customNumbers, none, some (jsTrim "Summary")⟩ ∧
    generateOptionLabel ⟨.customNumbers, none, some (jsTrim "Summary")⟩ none
      (.str "alpha") 0 = .ok (toString (0 + 1) ++ " " ++ jsTrim "Summary") ∧
    parseLabelOption (.customNumbersPS "" "") = .error (.validation "labelOption") ∧
    parseLabelOption (.customNumbersP "") =
      .error (.validation "labelOption prefix") :=
  customNumbers_label_rules "Chapter" "Summary" (.str "alpha") 0
    (by decide) (by decide)

/-- Every branch of `buildOption` marks the option as default exactly when
its index equals `currentPage`. -/
theorem buildOption_isDefault (cfg : LabelConfig)
    (renderer : Option CustomLabelRenderer) (opts : SelectMenuOpts)
    (cp : Int) (item : JsItem) (i : Nat) :
    (buildOption cfg renderer opts cp item i).isDefault = decide ((i : Int) = cp) := by
  unfold buildOption
  dsimp only
  cases generateOptionLabel cfg renderer item i with
  | error e => rfl
  | ok label =>
    dsimp only
    split
    · rfl
    · split
      · rfl
      · split <;> rfl

/-- Every branch of `buildOption` uses the index as the option value. -/
theorem buildOption_value (cfg : LabelConfig)
    (renderer : Option CustomLabelRenderer) (opts : SelectMenuOpts)
    (cp : Int) (item : JsItem) (i : Nat) :
    (buildOption cfg renderer opts cp item i).value = toString i := by
  unfold buildOption
  dsimp only
  cases generateOptionLabel cfg renderer item i with
  | error e => rfl
  | ok label =>
    dsimp only
    split
    · rfl
    · split
      · rfl
      · split <;> rfl

/-- The default flag of every built slot is `(i == currentPage)`. -/
theorem selectOptionEntry_isDefault (cfg : LabelConfig)
    (renderer : Option CustomLabelRenderer) (opts : SelectMenuOpts)
    (s : PaginatorState JsItem) (i : Nat) :
    (selectOptionEntry cfg renderer opts s i).isDefault =
      decide ((i : Int) = s.currentPage) := by
  unfold selectOptionEntry
  cases h : s.data.get? i
  · rfl
  · exact buildOption_isDefault cfg renderer opts s.currentPage _ i

/-- The value of every built slot is the stringified index. -/
theorem selectOptionEntry_value (cfg : LabelConfig)
    (renderer : Option CustomLabelRenderer) (opts : SelectMenuOpts)
    (s : PaginatorState JsItem) (i : Nat) :
    (selectOptionEntry cfg renderer opts s i).value = toString i := by
  unfold selectOptionEntry
  cases h : s.data.get? i
  · rfl
  · exact buildOption_value cfg renderer opts s.currentPage _ i

/-- Counting the indices of `range n` equal (as integers) to `cp`. -/
theorem countP_range_int (n : Nat) (cp : Int) :
    (List.range n).countP (fun (i : Nat) => decide ((i : Int) = cp)) =
      if 0 ≤ cp ∧ cp < (n : Int) then 1 else 0 := by
  induction n with
  | zero =>
    rw [if_neg (by omega)]
    rfl
  | succ k ih =>
    rw [List.range_succ, List.countP_append, ih]
    simp only [List.countP_cons, List.countP_nil, decide_eq_true_eq]
    split_ifs <;> omega

/-- The option list of a successfully built menu. -/
theorem buildComponents_ok (cfg : LabelConfig)
    (renderer : Option CustomLabelRenderer) (opts : SelectMenuOpts)
    (s : PaginatorState JsItem) (rows : List ActionRow)
    (hrows : buildComponents cfg renderer opts s = .ok rows) :
    rows = [⟨[Component.selectMenu opts.customId
      (selectOptionsList cfg renderer opts s) false]⟩] := by
  unfold buildComponents at hrows
  by_cases hempty : (selectOptionsList cfg renderer opts s).isEmpty
  · simp [hempty] at hrows
  · simp only [hempty, Bool.false_eq_true, if_false, Except.ok.injEq] at hrows
    exact hrows.symm

/-- C7 amended: in a successfully built menu an option is flagged default
exactly when its index equals `currentPage`; hence exactly one option is
default when `0 <= currentPage < min(totalPages, maxOptionsPerMenu)`
(every default option being the one whose value is the current page index),
and no option at all is flagged when `currentPage` lies beyond the rendered
option range — which is reachable, see the counterexample. -/
theorem selector_default_count (cfg : LabelConfig)
    (renderer : Option CustomLabelRenderer) (opts : SelectMenuOpts)
    (s : PaginatorState JsItem) (rows : List ActionRow)
    (hrows : buildComponents cfg renderer opts s = .ok rows) :
    defaultCount rows =
      (if 0 ≤ s.currentPage ∧
          s.currentPage < min s.totalPages opts.maxOptionsPerMenu
       then 1 else 0) ∧
    ((selectOptionsOf rows).filter fun o => o.isDefault).all
      (fun o => o.value == toString s.currentPage.toNat) = true := by
  have hr := buildComponents_ok cfg renderer opts s rows hrows
  subst hr
  have hsel : selectOptionsOf [⟨[Component.selectMenu opts.customId
      (selectOptionsList cfg renderer opts s) false]⟩] =
      selectOptionsList cfg renderer opts s := by
    simp [selectOptionsOf]
  constructor
  · rw [defaultCount, hsel, ← List.countP_eq_length_filter]
    unfold selectOptionsList
    rw [List.countP_map]
    rw [List.countP_congr (fun i _ => by
      simp only [Function.comp]
      rw [selectOptionEntry_isDefault])]
    rw [countP_range_int]
    have hcond : (0 ≤ s.currentPage ∧ s.currentPage <
        (((min s.totalPages opts.maxOptionsPerMenu).toNat : Nat) : Int)) ↔
        (0 ≤ s.currentPage ∧
          s.currentPage < min s.totalPages opts.maxOptionsPerMenu) := by
      omega
    exact if_congr hcond rfl rfl
  · rw [hsel, List.all_eq_true]
    intro o ho
    rw [List.mem_filter] at ho
    obtain ⟨hmem, hdef⟩ := ho
    unfold selectOptionsList at hmem
    rw [List.mem_map] at hmem
    obtain ⟨i, hi, hoe⟩ := hmem
    subst hoe
    rw [selectOptionEntry_isDefault] at hdef
    have hip : (i : Int) = s.currentPage := by simpa using hdef
    have hit : i = s.currentPage.toNat := by omega
    rw [selectOptionEntry_value, hit]
    simp

/-- The bounded selector state of the C7 counterexample: three pages,
`maxOptionsPerMenu = 2`, constructed with `startPage = 2`. -/
def c7data : List JsItem := [.str "a", .str "b", .str "c"]

/-- The constructor output for `c7data` with `startPage = 2`. -/
def c7state : PaginatorState JsItem := ⟨2, 3, false, none, c7data, none, false⟩

/-- Selector options with `maxOptionsPerMenu = 2`. -/
def c7opts : SelectMenuOpts := ⟨"Select a page...", "linx_select_1", 2, true, 50⟩

/-- C7 counterexample: a session constructed with three pages,
`maxOptionsPerMenu = 2` and `startPage = 2` renders a menu of two options
of which none is flagged default — `currentPage = 2` lies outside the
rendered option range, refuting "exactly one rendered option is marked
default" over all reachable states. -/
theorem selector_no_default_out_of_range_cex :
    initState c7data 2 = Except.ok c7state ∧
    (buildComponents ⟨.pageNumbers, none, none⟩ none c7opts c7state).toOption.map
      defaultCount = some 0 ∧
    (buildComponents ⟨.pageNumbers, none, none⟩ none c7opts c7state).toOption.map
      (fun rows => (selectOptionsOf rows).length) = some 2 :=
  ⟨rfl, by decide, by decide⟩

/-- An in-range selector state for the C7 witness. -/
def c7wstate : PaginatorState JsItem :=
  ⟨1, 2, true, some 0, [.str "a", .str "b"], none, true⟩

/-- Selector options with the default cap for the C7 witness. -/
def c7wopts : SelectMenuOpts := ⟨"Select a page...", "linx_select_1", 25, true, 50⟩

/-- The menu rows built for `c7wstate`. -/
def c7wrows : List ActionRow :=
  [⟨[Component.selectMenu "linx_select_1"
      [⟨"Page 1", "0", some "a", false⟩, ⟨"Page 2", "1", some "b", true⟩] false]⟩]

/-- Witness for the C7 amendment on a concrete in-range state. -/
theorem selector_default_count_witness :
    (defaultCount c7wrows =
      (if 0 ≤ c7wstate.currentPage ∧
          c7wstate.currentPage < min c7wstate.totalPages c7wopts.maxOptionsPerMenu
       then 1 else 0)) ∧
    ((selectOptionsOf c7wrows).filter fun o => o.isDefault).all
      (fun o => o.value == toString c7wstate.currentPage.toNat) = true :=
  selector_default_count ⟨.pageNumbers, none, none⟩ none c7wopts c7wstate
    c7wrows (by rfl)

end LinxJS
